import Mathlib

/-!
Verification of the CustomerSentimentAnalyser repository (src/sentiment.py)
against its natural-language specification.

The Python module wraps the TextBlob NLP engine.  We shallowly embed the
repository's own logic (threshold validation, classification, result
aggregation, error containment, CLI exit-code policy) in Lean.  The NLP
engine is opaque to the program (spec §1, §6), so it is modelled as an
oracle (`EngineBehavior`) recording the outcome of every engine call the
Python code makes, including the exceptions each call may raise.  Python
floats are modelled as rationals; Python dictionaries of optional keys as
structures of `Option` fields; raised exceptions as `Except` values.
-/

/-- The three classification labels returned by `classify_sentiment`. -/
inductive Classification where
  | Positive
  | Negative
  | Neutral
deriving DecidableEq, Repr

/-- The analyzer state: the two thresholds stored by `__init__`
(src/sentiment.py lines 40-44). -/
structure SentimentAnalyzer where
  positive_threshold : ℚ
  negative_threshold : ℚ
deriving DecidableEq, Repr

/-- `SentimentAnalyzer.__init__` (src/sentiment.py lines 27-46): if the
supplied thresholds violate `-1.0 <= negative <= positive <= 1.0`, both are
replaced by the defaults `(0.1, -0.1)`; otherwise they are stored unchanged.
Construction never fails. -/
def SentimentAnalyzer.init (positive_threshold negative_threshold : ℚ) :
    SentimentAnalyzer :=
  if -1 ≤ negative_threshold ∧ negative_threshold ≤ positive_threshold ∧
      positive_threshold ≤ 1 then
    ⟨positive_threshold, negative_threshold⟩
  else
    ⟨1/10, -(1/10)⟩

/-- `SentimentAnalyzer.classify_sentiment` (src/sentiment.py lines 48-63). -/
def SentimentAnalyzer.classify_sentiment (a : SentimentAnalyzer)
    (polarity : ℚ) : Classification :=
  if a.positive_threshold ≤ polarity then .Positive
  else if polarity ≤ a.negative_threshold then .Negative
  else .Neutral

/-- C1: `classify_sentiment` implements the threshold rule as a piecewise
definition: `polarity >= positive_threshold` gives Positive; otherwise
`polarity <= negative_threshold` gives Negative; otherwise Neutral; and the
Positive test is made first, so a polarity satisfying both threshold tests is
classified Positive. -/
theorem classify_sentiment_piecewise (a : SentimentAnalyzer) (p : ℚ) :
    (a.positive_threshold ≤ p → a.classify_sentiment p = .Positive) ∧
    (¬ a.positive_threshold ≤ p → p ≤ a.negative_threshold →
      a.classify_sentiment p = .Negative) ∧
    (¬ a.positive_threshold ≤ p → ¬ p ≤ a.negative_threshold →
      a.classify_sentiment p = .Neutral) ∧
    (a.positive_threshold ≤ p → p ≤ a.negative_threshold →
      a.classify_sentiment p = .Positive) := by
  unfold SentimentAnalyzer.classify_sentiment
  by_cases h1 : a.positive_threshold ≤ p <;>
    by_cases h2 : p ≤ a.negative_threshold <;>
    simp [h1, h2]

/-- Witness for C1 at concrete inputs. -/
theorem classify_sentiment_piecewise_witness :
    (SentimentAnalyzer.mk (1/10) (-(1/10))).classify_sentiment (1/2) =
      .Positive ∧
    (SentimentAnalyzer.mk (1/10) (-(1/10))).classify_sentiment (-(1/2)) =
      .Negative :=
  ⟨(classify_sentiment_piecewise ⟨1/10, -(1/10)⟩ (1/2)).1 (by norm_num),
   (classify_sentiment_piecewise ⟨1/10, -(1/10)⟩ (-(1/2))).2.1
     (by norm_num) (by norm_num)⟩

/-- C2 counterexample: an analyzer constructed with thresholds
`positive = negative = 0` is accepted at construction (the invariant
`-1 ≤ negative ≤ positive ≤ 1` holds and the values are stored), the
polarity `0` satisfies `polarity ≤ negative_threshold`, yet
`classify_sentiment 0` returns Positive, not Negative, because the Positive
test is made first. -/
theorem classify_negative_counterexample :
    (-1 ≤ (SentimentAnalyzer.init 0 0).negative_threshold ∧
      (SentimentAnalyzer.init 0 0).negative_threshold ≤
        (SentimentAnalyzer.init 0 0).positive_threshold ∧
      (SentimentAnalyzer.init 0 0).positive_threshold ≤ 1) ∧
    (0 : ℚ) ≤ (SentimentAnalyzer.init 0 0).negative_threshold ∧
    (SentimentAnalyzer.init 0 0).classify_sentiment 0 ≠
      Classification.Negative := by
  refine ⟨⟨?_, ?_, ?_⟩, ?_, ?_⟩ <;>
    simp [SentimentAnalyzer.init, SentimentAnalyzer.classify_sentiment]

/-- C2 amended: for an analyzer whose thresholds were accepted at
construction, a polarity with `polarity ≤ negative_threshold` that does not
also satisfy the Positive test (`polarity < positive_threshold`) is
classified Negative. -/
theorem classify_negative_of_accepted (pos neg p : ℚ)
    (h : -1 ≤ neg ∧ neg ≤ pos ∧ pos ≤ 1)
    (hle : p ≤ neg) (hlt : p < pos) :
    (SentimentAnalyzer.init pos neg).classify_sentiment p = .Negative := by
  have hinit : SentimentAnalyzer.init pos neg = ⟨pos, neg⟩ := by
    unfold SentimentAnalyzer.init
    rw [if_pos h]
  rw [hinit]
  unfold SentimentAnalyzer.classify_sentiment
  simp only
  rw [if_neg (not_le.mpr hlt), if_pos hle]

/-- Witness for the amended C2 at a concrete input. -/
theorem classify_negative_of_accepted_witness :
    (SentimentAnalyzer.init (1/10) (-(1/10))).classify_sentiment (-(1/2)) =
      .Negative :=
  classify_negative_of_accepted (1/10) (-(1/10)) (-(1/2))
    (by norm_num) (by norm_num) (by norm_num)

/-- C3: construction never fails; thresholds violating the invariant are
both replaced with the exact defaults `(0.1, -0.1)`, discarding the supplied
values, and thresholds satisfying it are stored unchanged. -/
theorem init_threshold_policy (pos neg : ℚ) :
    (¬ (-1 ≤ neg ∧ neg ≤ pos ∧ pos ≤ 1) →
      SentimentAnalyzer.init pos neg = ⟨1/10, -(1/10)⟩) ∧
    ((-1 ≤ neg ∧ neg ≤ pos ∧ pos ≤ 1) →
      SentimentAnalyzer.init pos neg = ⟨pos, neg⟩) := by
  constructor <;> intro h <;> simp [SentimentAnalyzer.init, h]

/-- Witness for C3: a crossing pair is reset to the defaults, a legal pair
is stored unchanged. -/
theorem init_threshold_policy_witness :
    SentimentAnalyzer.init 0 1 = ⟨1/10, -(1/10)⟩ ∧
    SentimentAnalyzer.init (1/2) 0 = ⟨1/2, 0⟩ :=
  ⟨(init_threshold_policy 0 1).1 (by norm_num),
   (init_threshold_policy (1/2) 0).2 (by norm_num)⟩

/-- A Python exception as the analyzer can observe it: the exception classes
distinguished by the handlers in src/sentiment.py (`TextBlobException` and its
subclasses `TranslatorError` / `NotTranslated`, versus any other `Exception`),
together with its `str` message. -/
inductive PyExc where
  | textBlobExc (msg : String)
  | translatorError (msg : String)
  | notTranslated (msg : String)
  | otherExc (msg : String)
deriving DecidableEq, Repr

/-- The `str(e)` of an exception. -/
def PyExc.message : PyExc → String
  | .textBlobExc m => m
  | .translatorError m => m
  | .notTranslated m => m
  | .otherExc m => m

/-- Whether the exception is caught by `except TextBlobException`.
In textblob, `TranslatorError` and `NotTranslated` are subclasses of the
base TextBlob exception class. -/
def PyExc.isTextBlobException : PyExc → Bool
  | .otherExc _ => false
  | _ => true

/-- An oracle recording the outcome (value or raised exception) of every
call this program makes into the opaque TextBlob engine for one input text:
`TextBlob(text)`, `blob.sentences`, `sentence.sentiment` (per index),
`blob.sentiment`, `len(blob.words)`, `blob.noun_phrases`, and
`blob.detect_language()`.  The spec (§1, §6) treats the engine as an
external collaborator with no assumption on its behavior, so theorems
quantify over this oracle. -/
structure EngineBehavior where
  makeBlob : Except PyExc Unit
  blobSentences : Except PyExc (List String)
  sentenceSentiment : Nat → Except PyExc (ℚ × ℚ)
  overallSentiment : Except PyExc (ℚ × ℚ)
  wordCount : Except PyExc Nat
  nounPhrases : Except PyExc (List String)
  detectLang : Except PyExc String

/-- One entry of the `sentences` list: the sentence text plus either the
scores (polarity, subjectivity, classification) or an `error` string
(src/sentiment.py lines 96-109). -/
structure SentenceEntry where
  text : String
  result : Except String (ℚ × ℚ × Classification)
deriving Repr

/-- The `overall` block (src/sentiment.py lines 113-117). -/
structure OverallResult where
  polarity : ℚ
  subjectivity : ℚ
  classification : Classification
deriving Repr

/-- The result dictionary of `analyze_text` / `analyze_file`: each optional
key of the Python dict becomes an `Option` field (`none` = key absent). -/
structure AnalysisResult where
  error : Option String
  analysis_timestamp : Option ℚ
  sentences : Option (List SentenceEntry)
  overall : Option OverallResult
  text_stats : Option (Nat × Nat)
  noun_phrases : Option (List String)
  detected_language : Option String
  detected_language_error : Option String
  processing_time_seconds : Option ℚ
deriving Repr

/-- A dictionary whose only key is `error`. -/
def errorOnly (msg : String) : AnalysisResult :=
  ⟨some msg, none, none, none, none, none, none, none, none⟩

/-- The result carries an `error` key and no other key. -/
def hasOnlyErrorKey (r : AnalysisResult) : Prop :=
  r.error.isSome = true ∧ r.analysis_timestamp = none ∧ r.sentences = none ∧
  r.overall = none ∧ r.text_stats = none ∧ r.noun_phrases = none ∧
  r.detected_language = none ∧ r.detected_language_error = none ∧
  r.processing_time_seconds = none

/-- The `text` argument of `analyze_text` as Python sees it: `None`, a
non-string object, or a string. -/
inductive PyInput where
  | pyNone
  | nonString
  | str (s : String)

/-- The input-validation test `not text or not isinstance(text, str) or not
text.strip()` (src/sentiment.py line 79): a string fails it when it is
empty or when stripping whitespace from both ends leaves nothing, i.e. when
every character is whitespace. -/
def inputInvalid : PyInput → Bool
  | .pyNone => true
  | .nonString => true
  | .str s => s.data.isEmpty || s.data.all Char.isWhitespace

/-- The empty-input error message (src/sentiment.py line 82). -/
def emptyInputMsg : String :=
  "The text provided is devoid of content, My Lord. Analysis requires substance."

/-- The message built by the outer exception handlers of `analyze_text`
(src/sentiment.py lines 166-173). -/
def outerErrorMsg (e : PyExc) : String :=
  if e.isTextBlobException then
    "A TextBlob-specific issue occurred: " ++
      (e.message ++ ". The library appears... temperamental.")
  else
    "A critical unexpected error arose during analysis: " ++
      (e.message ++ ". Immediate attention required.")

/-- The sentence loop of `analyze_text` (src/sentiment.py lines 95-109),
started at enumeration index `i`: each iteration appends one entry; a raised
exception is caught by the per-iteration `except Exception` handler, which
records the message in that entry and continues with the next sentence. -/
def sentenceEntriesFrom (a : SentimentAnalyzer) (eng : EngineBehavior) :
    Nat → List String → List SentenceEntry
  | _, [] => []
  | i, stext :: rest =>
    (match eng.sentenceSentiment i with
     | .ok v => ⟨stext, .ok (v.1, v.2, a.classify_sentiment v.1)⟩
     | .error e => ⟨stext, .error e.message⟩) ::
      sentenceEntriesFrom a eng (i + 1) rest

/-- The full sentence loop, starting at index 0. -/
def sentenceEntries (a : SentimentAnalyzer) (eng : EngineBehavior)
    (sents : List String) : List SentenceEntry :=
  sentenceEntriesFrom a eng 0 sents

/-- The core sentiment part of the `try` body (src/sentiment.py
lines 92-127): in sentence-level mode the sentence list and loop followed by
the overall sentiment, otherwise just the overall sentiment.  Exceptions
outside the per-sentence handler propagate. -/
def coreSentiment (a : SentimentAnalyzer) (eng : EngineBehavior)
    (sentence_level : Bool) :
    Except PyExc (Option (List SentenceEntry) × OverallResult) :=
  if sentence_level then
    match eng.blobSentences with
    | .error e => .error e
    | .ok sents =>
      match eng.overallSentiment with
      | .error e => .error e
      | .ok ov => .ok (some (sentenceEntries a eng sents),
          ⟨ov.1, ov.2, a.classify_sentiment ov.1⟩)
  else
    match eng.overallSentiment with
    | .error e => .error e
    | .ok ov => .ok (none, ⟨ov.1, ov.2, a.classify_sentiment ov.1⟩)

/-- The optional noun-phrase extraction (src/sentiment.py lines 138-142);
an engine exception here propagates to the outer handlers. -/
def nounPhrasesField (eng : EngineBehavior) (include_noun_phrases : Bool) :
    Except PyExc (Option (List String)) :=
  if include_noun_phrases then
    match eng.nounPhrases with
    | .error e => .error e
    | .ok l => .ok (some l)
  else .ok none

/-- The optional language detection (src/sentiment.py lines 144-157): every
exception, recognized (`TranslatorError` / `NotTranslated`) or not, is
caught locally and recorded as `detected_language_error`; analysis
continues. -/
def languageFields (eng : EngineBehavior) (detect_language : Bool) :
    Option String × Option String :=
  if detect_language then
    match eng.detectLang with
    | .ok lang => (some lang, none)
    | .error e => (none, some e.message)
  else (none, none)

/-- The `try` body of `analyze_text` (src/sentiment.py lines 87-164), with
the engine calls in source order: blob construction, core sentiment,
`text_stats` (word count then sentence count), noun phrases, language
detection, then the timing field.  `t0` is the timestamp taken at line 89
and `dt` the elapsed time of line 161. -/
def analyzeBody (a : SentimentAnalyzer) (eng : EngineBehavior)
    (sentence_level include_noun_phrases detect_language : Bool)
    (t0 dt : ℚ) : Except PyExc AnalysisResult :=
  match eng.makeBlob with
  | .error e => .error e
  | .ok _ =>
    match coreSentiment a eng sentence_level with
    | .error e => .error e
    | .ok core =>
      match eng.wordCount with
      | .error e => .error e
      | .ok wc =>
        match eng.blobSentences with
        | .error e => .error e
        | .ok sents2 =>
          match nounPhrasesField eng include_noun_phrases with
          | .error e => .error e
          | .ok np =>
            .ok ⟨none, some t0, core.1, some core.2, some (wc, sents2.length),
              np, (languageFields eng detect_language).1,
              (languageFields eng detect_language).2, some dt⟩

/-- `SentimentAnalyzer.analyze_text` (src/sentiment.py lines 65-173):
input validation, then the `try` body; a `TextBlobException` or any other
exception escaping the body is converted to a dictionary whose only key is
`error`. -/
def SentimentAnalyzer.analyze_text (a : SentimentAnalyzer)
    (eng : EngineBehavior) (text : PyInput)
    (sentence_level include_noun_phrases detect_language : Bool)
    (t0 dt : ℚ) : AnalysisResult :=
  if inputInvalid text then errorOnly emptyInputMsg
  else
    match analyzeBody a eng sentence_level include_noun_phrases
        detect_language t0 dt with
    | .ok r => r
    | .error e => errorOnly (outerErrorMsg e)

/-- The outcome of `open(file_path).read()` as the `except` clauses of
`analyze_file` distinguish it (src/sentiment.py lines 189-215). -/
inductive FileReadResult where
  | ok (content : String)
  | fileNotFound
  | ioError (msg : String)
  | memoryError
  | otherError (msg : String)

/-- `SentimentAnalyzer.analyze_file` (src/sentiment.py lines 175-215):
reads the file and delegates to `analyze_text`, converting each class of
file error to a dictionary whose only key is `error`. -/
def SentimentAnalyzer.analyze_file (a : SentimentAnalyzer)
    (eng : EngineBehavior) (fileRead : FileReadResult) (file_path : String)
    (sentence_level include_noun_phrases detect_language : Bool)
    (t0 dt : ℚ) : AnalysisResult :=
  match fileRead with
  | .ok text =>
    a.analyze_text eng (.str text) sentence_level include_noun_phrases
      detect_language t0 dt
  | .fileNotFound =>
    errorOnly ("File not found at path: " ++
      (file_path ++ ". Ensure its location is correct."))
  | .ioError m =>
    errorOnly ("Error reading file " ++
      (file_path ++ (": " ++ (m ++ ". The file seems... resistant."))))
  | .memoryError =>
    errorOnly ("Memory Error: File " ++
      (file_path ++ " is too large to process with current resources."))
  | .otherError m =>
    errorOnly ("An unexpected error occurred while processing file " ++
      (file_path ++ (": " ++ (m ++ ". Consult the logs."))))

/-- A dictionary whose only key is `error` satisfies `hasOnlyErrorKey`. -/
theorem hasOnlyErrorKey_errorOnly (m : String) :
    hasOnlyErrorKey (errorOnly m) := by
  simp [hasOnlyErrorKey, errorOnly]

/-- Language detection never records both a language and a detection
error. -/
theorem languageFields_excl (eng : EngineBehavior) (dl : Bool) :
    (languageFields eng dl).1 = none ∨ (languageFields eng dl).2 = none := by
  unfold languageFields
  cases dl with
  | false => simp
  | true => cases eng.detectLang <;> simp

/-- A successful pass through the `try` body of `analyze_text` produces a
result with no `error` key, the start timestamp, the elapsed time, and the
language-detection fields computed by the local handler. -/
theorem analyzeBody_ok_fields {a : SentimentAnalyzer} {eng : EngineBehavior}
    {sl inp dl : Bool} {t0 dt : ℚ} {r : AnalysisResult}
    (h : analyzeBody a eng sl inp dl t0 dt = .ok r) :
    r.error = none ∧ r.analysis_timestamp = some t0 ∧
    r.processing_time_seconds = some dt ∧
    r.detected_language = (languageFields eng dl).1 ∧
    r.detected_language_error = (languageFields eng dl).2 := by
  unfold analyzeBody at h
  repeat' split at h
  all_goals try (injection h with h; subst h; exact ⟨rfl, rfl, rfl, rfl, rfl⟩)
  all_goals injection h

/-- When every engine call that the flags make reachable succeeds, the
`try` body of `analyze_text` returns the fully aggregated result. -/
theorem analyzeBody_success {a : SentimentAnalyzer} {eng : EngineBehavior}
    {sl inp dl : Bool} {t0 dt : ℚ} {sents : List String} {po so : ℚ}
    {wc : Nat} {npf : Option (List String)}
    (hblob : eng.makeBlob = .ok ())
    (hsents : eng.blobSentences = .ok sents)
    (hov : eng.overallSentiment = .ok (po, so))
    (hwc : eng.wordCount = .ok wc)
    (hnp : nounPhrasesField eng inp = .ok npf) :
    analyzeBody a eng sl inp dl t0 dt =
      .ok ⟨none, some t0,
        (if sl then some (sentenceEntries a eng sents) else none),
        some ⟨po, so, a.classify_sentiment po⟩,
        some (wc, sents.length), npf,
        (languageFields eng dl).1, (languageFields eng dl).2, some dt⟩ := by
  cases sl <;>
    simp [analyzeBody, coreSentiment, hblob, hsents, hov, hwc, hnp]

/-- Every call of `analyze_text` returns either a dictionary whose only key
is `error`, or a successful result carrying the timestamp and timing
fields and the language-detection fields of the local handler. -/
theorem analyze_text_shape (a : SentimentAnalyzer) (eng : EngineBehavior)
    (text : PyInput) (sl inp dl : Bool) (t0 dt : ℚ) :
    (∃ m, a.analyze_text eng text sl inp dl t0 dt = errorOnly m) ∨
    ((a.analyze_text eng text sl inp dl t0 dt).error = none ∧
     (a.analyze_text eng text sl inp dl t0 dt).analysis_timestamp = some t0 ∧
     (a.analyze_text eng text sl inp dl t0 dt).processing_time_seconds =
       some dt ∧
     (a.analyze_text eng text sl inp dl t0 dt).detected_language =
       (languageFields eng dl).1 ∧
     (a.analyze_text eng text sl inp dl t0 dt).detected_language_error =
       (languageFields eng dl).2) := by
  by_cases hinv : inputInvalid text = true
  · exact Or.inl ⟨emptyInputMsg, by simp [SentimentAnalyzer.analyze_text, hinv]⟩
  · cases hb : analyzeBody a eng sl inp dl t0 dt with
    | error e =>
      exact Or.inl ⟨outerErrorMsg e,
        by simp [SentimentAnalyzer.analyze_text, hinv, hb]⟩
    | ok r =>
      right
      have hf := analyzeBody_ok_fields hb
      simp only [SentimentAnalyzer.analyze_text, hinv, hb, if_false,
        Bool.false_eq_true]
      exact hf

/-- The containment facts of C6 for `analyze_text` alone, shared with the
`analyze_file` delegation case. -/
theorem analyze_text_containment (a : SentimentAnalyzer)
    (eng : EngineBehavior) (text : PyInput) (sl inp dl : Bool) (t0 dt : ℚ) :
    ((a.analyze_text eng text sl inp dl t0 dt).error.isSome = true →
      hasOnlyErrorKey (a.analyze_text eng text sl inp dl t0 dt)) ∧
    ((a.analyze_text eng text sl inp dl t0 dt).analysis_timestamp.isSome =
        true ∨
      (a.analyze_text eng text sl inp dl t0 dt).processing_time_seconds.isSome
        = true →
      (a.analyze_text eng text sl inp dl t0 dt).error = none) := by
  rcases analyze_text_shape a eng text sl inp dl t0 dt with ⟨m, hm⟩ | hok
  · rw [hm]
    exact ⟨fun _ => hasOnlyErrorKey_errorOnly m, by simp [errorOnly]⟩
  · exact ⟨fun h => absurd h (by simp [hok.1]), fun _ => hok.1⟩

/-- C4: for every input that is `None`, not a string, the empty string or
whitespace-only, `analyze_text` returns a dictionary whose only key is
`error`, whatever the flags. -/
theorem analyze_text_empty_input (a : SentimentAnalyzer)
    (eng : EngineBehavior) (text : PyInput) (sl inp dl : Bool) (t0 dt : ℚ)
    (h : text = .pyNone ∨ text = .nonString ∨
      ∃ s, text = .str s ∧ s.data.all Char.isWhitespace = true) :
    hasOnlyErrorKey (a.analyze_text eng text sl inp dl t0 dt) ∧
    (a.analyze_text eng text sl inp dl t0 dt).error = some emptyInputMsg := by
  have hinv : inputInvalid text = true := by
    rcases h with h | h | ⟨s, rfl, hs⟩
    · subst h; rfl
    · subst h; rfl
    · simp [inputInvalid, hs]
  rw [SentimentAnalyzer.analyze_text, if_pos hinv]
  exact ⟨hasOnlyErrorKey_errorOnly emptyInputMsg, rfl⟩

/-- Witness for C4: the whitespace-only string, with every flag raised,
yields the error-only dictionary. -/
theorem analyze_text_empty_input_witness :
    hasOnlyErrorKey ((SentimentAnalyzer.init (1/10) (-(1/10))).analyze_text
      ⟨.ok (), .ok [], fun _ => .ok (0, 0), .ok (0, 0), .ok 0, .ok [],
        .ok "en"⟩ (.str "   ") true true true 0 0) ∧
    ((SentimentAnalyzer.init (1/10) (-(1/10))).analyze_text
      ⟨.ok (), .ok [], fun _ => .ok (0, 0), .ok (0, 0), .ok 0, .ok [],
        .ok "en"⟩ (.str "   ") true true true 0 0).error =
      some emptyInputMsg :=
  analyze_text_empty_input _ _ _ _ _ _ _ _
    (Or.inr (Or.inr ⟨"   ", rfl, by decide⟩))

/-- C6: `analyze_text` and `analyze_file` are total (they are functions
into `AnalysisResult`, so every engine behavior, input and file outcome
yields a dictionary); every aborting failure yields a dictionary whose only
key is `error`, and `analysis_timestamp` / `processing_time_seconds` appear
only in results carrying no `error` key. -/
theorem analyzer_error_containment (a : SentimentAnalyzer)
    (eng : EngineBehavior) (text : PyInput) (fr : FileReadResult)
    (path : String) (sl inp dl : Bool) (t0 dt : ℚ) :
    ((a.analyze_text eng text sl inp dl t0 dt).error.isSome = true →
      hasOnlyErrorKey (a.analyze_text eng text sl inp dl t0 dt)) ∧
    ((a.analyze_text eng text sl inp dl t0 dt).analysis_timestamp.isSome =
        true ∨
      (a.analyze_text eng text sl inp dl t0 dt).processing_time_seconds.isSome
        = true →
      (a.analyze_text eng text sl inp dl t0 dt).error = none) ∧
    ((a.analyze_file eng fr path sl inp dl t0 dt).error.isSome = true →
      hasOnlyErrorKey (a.analyze_file eng fr path sl inp dl t0 dt)) ∧
    ((a.analyze_file eng fr path sl inp dl t0 dt).analysis_timestamp.isSome
        = true ∨
      (a.analyze_file eng fr path sl inp dl t0
          dt).processing_time_seconds.isSome = true →
      (a.analyze_file eng fr path sl inp dl t0 dt).error = none) := by
  refine ⟨(analyze_text_containment a eng text sl inp dl t0 dt).1,
    (analyze_text_containment a eng text sl inp dl t0 dt).2, ?_, ?_⟩ <;>
    cases fr <;>
    first
      | exact (analyze_text_containment a eng _ sl inp dl t0 dt).1
      | exact (analyze_text_containment a eng _ sl inp dl t0 dt).2
      | (intro h
         first
           | exact hasOnlyErrorKey_errorOnly _
           | exact absurd h (by simp [SentimentAnalyzer.analyze_file,
               errorOnly]))

/-- Witness for C6: a concrete engine whose blob construction raises, and a
missing file, both yield error-only dictionaries. -/
theorem analyzer_error_containment_witness :
    hasOnlyErrorKey ((SentimentAnalyzer.init (1/10) (-(1/10))).analyze_text
      ⟨.error (.otherExc "boom"), .ok [], fun _ => .ok (0, 0), .ok (0, 0),
        .ok 0, .ok [], .ok "en"⟩ (.str "hi") false false false 0 0) ∧
    hasOnlyErrorKey ((SentimentAnalyzer.init (1/10) (-(1/10))).analyze_file
      ⟨.error (.otherExc "boom"), .ok [], fun _ => .ok (0, 0), .ok (0, 0),
        .ok 0, .ok [], .ok "en"⟩ .fileNotFound "/nonexistent/path"
      false false false 0 0) :=
  ⟨(analyzer_error_containment (SentimentAnalyzer.init (1/10) (-(1/10)))
      ⟨.error (.otherExc "boom"), .ok [], fun _ => .ok (0, 0), .ok (0, 0),
        .ok 0, .ok [], .ok "en"⟩ (.str "hi") .fileNotFound
      "/nonexistent/path" false false false 0 0).1 (by rfl),
   (analyzer_error_containment (SentimentAnalyzer.init (1/10) (-(1/10)))
      ⟨.error (.otherExc "boom"), .ok [], fun _ => .ok (0, 0), .ok (0, 0),
        .ok 0, .ok [], .ok "en"⟩ (.str "hi") .fileNotFound
      "/nonexistent/path" false false false 0 0).2.2.1 (by rfl)⟩

/-- The sentence loop processes every sentence: one entry per sentence. -/
theorem sentenceEntriesFrom_length (a : SentimentAnalyzer)
    (eng : EngineBehavior) (k : Nat) (sents : List String) :
    (sentenceEntriesFrom a eng k sents).length = sents.length := by
  induction sents generalizing k with
  | nil => rfl
  | cons hd tl ih => simp [sentenceEntriesFrom, ih]

/-- The `i`-th entry produced by the sentence loop started at index `k`
comes from the `i`-th remaining sentence and the engine's answer for
enumeration index `k + i`. -/
theorem sentenceEntriesFrom_getElem (a : SentimentAnalyzer)
    (eng : EngineBehavior) (k : Nat) (sents : List String) (i : Nat) :
    (sentenceEntriesFrom a eng k sents)[i]? =
      (sents[i]?).map fun stext =>
        match eng.sentenceSentiment (k + i) with
        | .ok v => ⟨stext, .ok (v.1, v.2, a.classify_sentiment v.1)⟩
        | .error e => ⟨stext, .error e.message⟩ := by
  induction sents generalizing k i with
  | nil => simp [sentenceEntriesFrom]
  | cons hd tl ih =>
    cases i with
    | zero => simp [sentenceEntriesFrom]
    | succ n =>
      simp only [sentenceEntriesFrom, List.getElem?_cons_succ, ih (k + 1) n]
      have : k + 1 + n = k + (n + 1) := by omega
      rw [this]

/-- C5: in sentence-level mode, when the blob construction, sentence
segmentation, overall sentiment, word count and (when requested) noun
phrases succeed, the result is successful and carries an `overall` block;
the `sentences` sequence has one entry per sentence, where a sentence whose
analysis raised carries that exception's message as its `error` and every
sentence whose analysis succeeded carries polarity, subjectivity and
classification — so a failure of one sentence neither aborts the others
nor the overall summary. -/
theorem analyze_text_sentence_isolation (a : SentimentAnalyzer)
    (eng : EngineBehavior) (s : String) (inp dl : Bool) (t0 dt : ℚ)
    (sents : List String) (po so : ℚ) (wc : Nat) (npf : Option (List String))
    (hval : inputInvalid (.str s) = false)
    (hblob : eng.makeBlob = .ok ())
    (hsents : eng.blobSentences = .ok sents)
    (hov : eng.overallSentiment = .ok (po, so))
    (hwc : eng.wordCount = .ok wc)
    (hnp : nounPhrasesField eng inp = .ok npf) :
    (a.analyze_text eng (.str s) true inp dl t0 dt).error = none ∧
    (a.analyze_text eng (.str s) true inp dl t0 dt).overall =
      some ⟨po, so, a.classify_sentiment po⟩ ∧
    ∃ entries,
      (a.analyze_text eng (.str s) true inp dl t0 dt).sentences =
        some entries ∧
      entries.length = sents.length ∧
      ∀ i stext, sents[i]? = some stext →
        (∀ p sub, eng.sentenceSentiment i = .ok (p, sub) →
          entries[i]? = some ⟨stext, .ok (p, sub, a.classify_sentiment p)⟩) ∧
        (∀ e, eng.sentenceSentiment i = .error e →
          entries[i]? = some ⟨stext, .error e.message⟩) := by
  have hbody := @analyzeBody_success a eng true inp dl t0 dt sents po so wc
    npf hblob hsents hov hwc hnp
  have hmain : a.analyze_text eng (.str s) true inp dl t0 dt =
      ⟨none, some t0, some (sentenceEntries a eng sents),
        some ⟨po, so, a.classify_sentiment po⟩, some (wc, sents.length), npf,
        (languageFields eng dl).1, (languageFields eng dl).2, some dt⟩ := by
    rw [SentimentAnalyzer.analyze_text, hval]
    simp [hbody]
  rw [hmain]
  refine ⟨rfl, rfl, sentenceEntries a eng sents, rfl,
    sentenceEntriesFrom_length a eng 0 sents, ?_⟩
  intro i stext hst
  constructor
  · intro p sub hps
    rw [sentenceEntries, sentenceEntriesFrom_getElem, hst, Nat.zero_add, hps]
    rfl
  · intro e he
    rw [sentenceEntries, sentenceEntriesFrom_getElem, hst, Nat.zero_add, he]
    rfl

/-- Witness for C5: two sentences, the second raises; the first entry keeps
its scores, the second carries the error, and the overall block is there. -/
theorem analyze_text_sentence_isolation_witness :
    ((SentimentAnalyzer.init (1/10) (-(1/10))).analyze_text
      ⟨.ok (), .ok ["Good.", "Bad."],
        fun i => if i = 0 then .ok (1/2, 1/3) else .error (.otherExc "boom"),
        .ok (1/4, 1/5), .ok 4, .ok [], .ok "en"⟩
      (.str "Good. Bad.") true false false 0 0).error = none ∧
    ((SentimentAnalyzer.init (1/10) (-(1/10))).analyze_text
      ⟨.ok (), .ok ["Good.", "Bad."],
        fun i => if i = 0 then .ok (1/2, 1/3) else .error (.otherExc "boom"),
        .ok (1/4, 1/5), .ok 4, .ok [], .ok "en"⟩
      (.str "Good. Bad.") true false false 0 0).overall =
      some ⟨1/4, 1/5,
        (SentimentAnalyzer.init (1/10) (-(1/10))).classify_sentiment (1/4)⟩ ∧
    ∃ entries,
      ((SentimentAnalyzer.init (1/10) (-(1/10))).analyze_text
        ⟨.ok (), .ok ["Good.", "Bad."],
          fun i => if i = 0 then .ok (1/2, 1/3) else
            .error (.otherExc "boom"),
          .ok (1/4, 1/5), .ok 4, .ok [], .ok "en"⟩
        (.str "Good. Bad.") true false false 0 0).sentences =
        some entries ∧
      entries.length = 2 ∧
      entries[0]? = some ⟨"Good.", .ok (1/2, 1/3,
        (SentimentAnalyzer.init (1/10) (-(1/10))).classify_sentiment
          (1/2))⟩ ∧
      entries[1]? = some ⟨"Bad.", .error "boom"⟩ := by
  obtain ⟨h1, h2, entries, h3, h4, h5⟩ :=
    analyze_text_sentence_isolation (SentimentAnalyzer.init (1/10) (-(1/10)))
      ⟨.ok (), .ok ["Good.", "Bad."],
        fun i => if i = 0 then .ok (1/2, 1/3) else .error (.otherExc "boom"),
        .ok (1/4, 1/5), .ok 4, .ok [], .ok "en"⟩
      "Good. Bad." false false 0 0 ["Good.", "Bad."] (1/4) (1/5) 4 none
      (by decide) rfl rfl rfl rfl rfl
  exact ⟨h1, h2, entries, h3, h4,
    ((h5 0 "Good." rfl).1 (1/2) (1/3) rfl),
    ((h5 1 "Bad." rfl).2 (.otherExc "boom") rfl)⟩

/-- C8: when language detection is requested and every other engine call
succeeds, any detection failure — recognized translator error or any other
exception — is recorded as `detected_language_error` and the call still
returns successfully; and no result ever carries both `detected_language`
and `detected_language_error`. -/
theorem detect_language_failure_handling (a : SentimentAnalyzer)
    (eng : EngineBehavior) (s : String) (sl inp : Bool) (t0 dt : ℚ)
    (sents : List String) (po so : ℚ) (wc : Nat) (npf : Option (List String))
    (hval : inputInvalid (.str s) = false)
    (hblob : eng.makeBlob = .ok ())
    (hsents : eng.blobSentences = .ok sents)
    (hov : eng.overallSentiment = .ok (po, so))
    (hwc : eng.wordCount = .ok wc)
    (hnp : nounPhrasesField eng inp = .ok npf) :
    (∀ e, eng.detectLang = .error e →
      (a.analyze_text eng (.str s) sl inp true t0 dt).detected_language_error
        = some e.message ∧
      (a.analyze_text eng (.str s) sl inp true t0 dt).detected_language =
        none ∧
      (a.analyze_text eng (.str s) sl inp true t0 dt).error = none ∧
      (a.analyze_text eng (.str s) sl inp true t0 dt).processing_time_seconds
        = some dt) ∧
    (∀ (text2 : PyInput) (eng2 : EngineBehavior) (dl2 : Bool),
      ¬ ((a.analyze_text eng2 text2 sl inp dl2 t0 dt).detected_language.isSome
          = true ∧
        (a.analyze_text eng2 text2 sl inp dl2 t0
            dt).detected_language_error.isSome = true)) := by
  constructor
  · intro e he
    have hbody := @analyzeBody_success a eng sl inp true t0 dt sents po so
      wc npf hblob hsents hov hwc hnp
    rw [SentimentAnalyzer.analyze_text, hval]
    simp only [Bool.false_eq_true, if_false, hbody]
    simp [languageFields, he]
  · intro text2 eng2 dl2 ⟨hd, hde⟩
    rcases analyze_text_shape a eng2 text2 sl inp dl2 t0 dt with ⟨m, hm⟩ | hok
    · rw [hm] at hd
      simp [errorOnly] at hd
    · rcases languageFields_excl eng2 dl2 with hx | hx
      · rw [hok.2.2.2.1, hx] at hd
        simp at hd
      · rw [hok.2.2.2.2, hx] at hde
        simp at hde

/-- Witness for C8: a concrete engine whose language detection raises an
unexpected exception still yields a successful result recording
`detected_language_error`. -/
theorem detect_language_failure_handling_witness :
    ((SentimentAnalyzer.init (1/10) (-(1/10))).analyze_text
      ⟨.ok (), .ok ["Hi."], fun _ => .ok (0, 0), .ok (0, 0), .ok 1, .ok [],
        .error (.otherExc "no service")⟩
      (.str "Hi.") false false true 0 0).detected_language_error =
      some "no service" ∧
    ((SentimentAnalyzer.init (1/10) (-(1/10))).analyze_text
      ⟨.ok (), .ok ["Hi."], fun _ => .ok (0, 0), .ok (0, 0), .ok 1, .ok [],
        .error (.otherExc "no service")⟩
      (.str "Hi.") false false true 0 0).error = none :=
  ⟨((detect_language_failure_handling (SentimentAnalyzer.init (1/10)
        (-(1/10)))
      ⟨.ok (), .ok ["Hi."], fun _ => .ok (0, 0), .ok (0, 0), .ok 1, .ok [],
        .error (.otherExc "no service")⟩
      "Hi." false false 0 0 ["Hi."] 0 0 1 none
      (by decide) rfl rfl rfl rfl rfl).1 (.otherExc "no service") rfl).1,
   ((detect_language_failure_handling (SentimentAnalyzer.init (1/10)
        (-(1/10)))
      ⟨.ok (), .ok ["Hi."], fun _ => .ok (0, 0), .ok (0, 0), .ok 1, .ok [],
        .error (.otherExc "no service")⟩
      "Hi." false false 0 0 ["Hi."] 0 0 1 none
      (by decide) rfl rfl rfl rfl rfl).1 (.otherExc "no service") rfl).2.2.1⟩

/-- The parsed command-line arguments of `main` (src/sentiment.py
lines 222-290): the two input options (a missing option is `none`), the
three analysis flags, the output flag and the two thresholds. -/
structure Args where
  text : Option String
  file : Option String
  sentence_level : Bool
  noun_phrases : Bool
  detect_lang : Bool
  json : Bool
  pos_threshold : ℚ
  neg_threshold : ℚ

/-- Python truthiness of an optional string argument: `None` and the empty
string are falsy. -/
def optTruthy : Option String → Bool
  | none => false
  | some s => !s.data.isEmpty

/-- The argparse mutually-exclusive required group (src/sentiment.py
line 232): exactly one of `--text` / `--file` must be supplied; argparse
accepts the empty string as a supplied value. -/
def argparseAccepts (args : Args) : Bool :=
  (args.text.isSome || args.file.isSome) &&
    !(args.text.isSome && args.file.isSome)

/-- The input-selection block of `main` (src/sentiment.py lines 305-322):
`results` stays `None` unless `args.text` is truthy (then `analyze_text`
runs) or `args.file` is truthy (then `analyze_file` runs). -/
def selectResults (args : Args) (eng : EngineBehavior)
    (fileRead : FileReadResult) (t0 dt : ℚ) : Option AnalysisResult :=
  if optTruthy args.text then
    some ((SentimentAnalyzer.init args.pos_threshold
        args.neg_threshold).analyze_text eng (.str (args.text.getD ""))
      args.sentence_level args.noun_phrases args.detect_lang t0 dt)
  else if optTruthy args.file then
    some ((SentimentAnalyzer.init args.pos_threshold
        args.neg_threshold).analyze_file eng fileRead (args.file.getD "")
      args.sentence_level args.noun_phrases args.detect_lang t0 dt)
  else none

/-- The result-presentation block of `main` (src/sentiment.py
lines 325-345): exit code together with the messages printed to the error
stream.  `serTypeError` is the outcome of `json.dumps` (`none` = it
succeeded, `some e` = it raised a `TypeError` with message `e`); text-mode
printing cannot fail. -/
def presentResults (args : Args) (serTypeError : Option String)
    (results : Option AnalysisResult) : Nat × List String :=
  match results with
  | none => (1, [])
  | some r =>
    match r.error with
    | some e => (1, ["Operation failed: " ++ e])
    | none =>
      if args.json then
        match serTypeError with
        | none => (0, [])
        | some e =>
          (1, ["Output Error: Could not format results as JSON - " ++ e])
      else (0, [])

/-- `main` after argument parsing (src/sentiment.py lines 298-345): select
the input, run the analysis, present the result; returns the process exit
code and the explicit error-stream prints. -/
def mainRun (args : Args) (eng : EngineBehavior) (fileRead : FileReadResult)
    (serTypeError : Option String) (t0 dt : ℚ) : Nat × List String :=
  presentResults args serTypeError (selectResults args eng fileRead t0 dt)

/-- The ellipsizing of a sentence in text-mode output (src/sentiment.py
line 388): `text if len(text) < 80 else text[:77] + "..."`. -/
def display_text (s : String) : String :=
  if s.length < 80 then s else String.mk (s.data.take 77) ++ "..."

/-- C7: the CLI exits 0 exactly when a result was produced, it carries no
`error` key, and (in JSON mode) serialization succeeds; an error-bearing
result and a JSON serialization failure each exit 1 with a message on the
error stream; `analyze_file` on a missing path returns an `error` that
mentions "not found" and names the path, and the CLI exits 1 for that
case. -/
theorem cli_exit_code_policy (args : Args) (eng : EngineBehavior)
    (fr : FileReadResult) (ser : Option String) (t0 dt : ℚ) (path : String)
    (a : SentimentAnalyzer) (sl inp dl : Bool) :
    ((mainRun args eng fr ser t0 dt).1 = 0 ↔
      ∃ r, selectResults args eng fr t0 dt = some r ∧ r.error = none ∧
        (args.json = true → ser = none)) ∧
    (∀ r e, selectResults args eng fr t0 dt = some r → r.error = some e →
      mainRun args eng fr ser t0 dt = (1, ["Operation failed: " ++ e])) ∧
    (∀ r e, selectResults args eng fr t0 dt = some r → r.error = none →
      args.json = true → ser = some e →
      mainRun args eng fr ser t0 dt =
        (1, ["Output Error: Could not format results as JSON - " ++ e])) ∧
    ((a.analyze_file eng .fileNotFound path sl inp dl t0 dt).error =
      some ("File not found at path: " ++
        (path ++ ". Ensure its location is correct."))) ∧
    (∃ u v, "File not found at path: " ++
        (path ++ ". Ensure its location is correct.") =
      u ++ ("not found" ++ v)) ∧
    (∃ u v, "File not found at path: " ++
        (path ++ ". Ensure its location is correct.") = u ++ (path ++ v)) ∧
    (optTruthy args.text = false → optTruthy args.file = true →
      fr = .fileNotFound → (mainRun args eng fr ser t0 dt).1 = 1) := by
  refine ⟨?_, ?_, ?_, rfl, ?_, ⟨"File not found at path: ",
    ". Ensure its location is correct.", rfl⟩, ?_⟩
  · unfold mainRun presentResults
    cases hsel : selectResults args eng fr t0 dt with
    | none => simp
    | some r =>
      cases hre : r.error with
      | some e => simp [hre]
      | none =>
        cases hj : args.json with
        | false => simp [hre, hj]
        | true => cases ser <;> simp [hre, hj]
  · intro r e hsel hre
    unfold mainRun presentResults
    rw [hsel]
    simp [hre]
  · intro r e hsel hre hj hser
    unfold mainRun presentResults
    rw [hsel]
    simp [hre, hj, hser]
  · refine ⟨"File ", " at path: " ++
      (path ++ ". Ensure its location is correct."), ?_⟩
    rw [← String.append_assoc, ← String.append_assoc]
    rfl
  · intro ht hf hfr
    unfold mainRun presentResults selectResults
    rw [ht, hf, hfr]
    simp [SentimentAnalyzer.analyze_file, errorOnly]

/-- Witness for C7 at concrete inputs: a missing file makes the CLI exit 1,
and a clean text run exits 0. -/
theorem cli_exit_code_policy_witness :
    (mainRun ⟨none, some "/nonexistent/path", false, false, false, false,
        1/10, -(1/10)⟩
      ⟨.ok (), .ok [], fun _ => .ok (0, 0), .ok (0, 0), .ok 0, .ok [],
        .ok "en"⟩ .fileNotFound none 0 0).1 = 1 :=
  (cli_exit_code_policy ⟨none, some "/nonexistent/path", false, false,
      false, false, 1/10, -(1/10)⟩
    ⟨.ok (), .ok [], fun _ => .ok (0, 0), .ok (0, 0), .ok 0, .ok [],
      .ok "en"⟩ .fileNotFound none 0 0 "/nonexistent/path"
    (SentimentAnalyzer.init (1/10) (-(1/10)))
    false false false).2.2.2.2.2.2 rfl rfl rfl

/-- C9 counterexample: a sentence of 78 characters is longer than 77, yet
text mode displays it in full, not as its first 77 characters plus an
ellipsis, because the source cuts at `len(text) < 80`. -/
theorem display_text_counterexample :
    77 < (String.mk (List.replicate 78 'a')).length ∧
    display_text (String.mk (List.replicate 78 'a')) =
      String.mk (List.replicate 78 'a') ∧
    display_text (String.mk (List.replicate 78 'a')) ≠
      String.mk ((String.mk (List.replicate 78 'a')).data.take 77) ++
        "..." := by
  decide

/-- C9 amended: a sentence of 80 characters or more is displayed as its
first 77 characters followed by "...", and a sentence of fewer than 80
characters is displayed in full. -/
theorem display_text_truncation (s : String) :
    (80 ≤ s.length → display_text s = String.mk (s.data.take 77) ++ "...") ∧
    (s.length < 80 → display_text s = s) := by
  constructor <;> intro h
  · rw [display_text, if_neg (Nat.not_lt.mpr h)]
  · rw [display_text, if_pos h]

/-- Witness for the amended C9 at concrete inputs. -/
theorem display_text_truncation_witness :
    display_text (String.mk (List.replicate 80 'a')) =
      String.mk ((String.mk (List.replicate 80 'a')).data.take 77) ++
        "..." ∧
    display_text "short" = "short" :=
  ⟨(display_text_truncation (String.mk (List.replicate 80 'a'))).1
      (by decide),
   (display_text_truncation "short").2 (by decide)⟩

/-- C10: `--text ""` passes the argparse group (one option supplied), but
the truthiness test of the driver selects neither branch: no result is
produced (`selectResults` is `None`, so `analyze_text` is never called) and
the process exits 1 through the `results is None` safeguard, printing no
"Operation failed" message (nothing at all) on the error stream. -/
theorem empty_text_argument_behavior (args : Args) (eng : EngineBehavior)
    (fr : FileReadResult) (ser : Option String) (t0 dt : ℚ)
    (ht : args.text = some "") (hf : args.file = none) :
    argparseAccepts args = true ∧
    selectResults args eng fr t0 dt = none ∧
    mainRun args eng fr ser t0 dt = (1, []) := by
  have h1 : argparseAccepts args = true := by
    simp [argparseAccepts, ht, hf]
  have h2 : selectResults args eng fr t0 dt = none := by
    unfold selectResults
    rw [ht, hf]
    rfl
  refine ⟨h1, h2, ?_⟩
  rw [mainRun, h2]
  rfl

/-- Witness for C10 at a concrete argument vector. -/
theorem empty_text_argument_behavior_witness :
    argparseAccepts ⟨some "", none, false, false, false, false, 1/10,
      -(1/10)⟩ = true ∧
    selectResults ⟨some "", none, false, false, false, false, 1/10,
      -(1/10)⟩
      ⟨.ok (), .ok [], fun _ => .ok (0, 0), .ok (0, 0), .ok 0, .ok [],
        .ok "en"⟩ .fileNotFound 0 0 = none ∧
    mainRun ⟨some "", none, false, false, false, false, 1/10, -(1/10)⟩
      ⟨.ok (), .ok [], fun _ => .ok (0, 0), .ok (0, 0), .ok 0, .ok [],
        .ok "en"⟩ .fileNotFound none 0 0 = (1, []) :=
  empty_text_argument_behavior _ _ _ _ _ _ rfl rfl
